import Mathlib

/-
  Verification of the retrieval pipeline of the aisearch-mcp4aoai solution.

  The repository exposes two MCP tools, an integer addition `add` and a
  retrieval pipeline `ai_search`, in two nearly identical files:
  solutions/aisearch-mcp4aoai/server.py (streamable-http transport) and
  solutions/aisearch-mcp4aoai/server_sse.py (SSE transport).

  Shallow embedding choices:
  - `os.getenv` is modelled by a parameter `getenv : String -> Option String`
    (Python returns None for an unset variable).
  - The two external collaborators, the Azure OpenAI embeddings endpoint
    (`client.embeddings.create`) and the Azure AI Search query endpoint
    (`search_client.search`), are modelled as function parameters returning
    `Except String _` (a raised SDK exception is the `.error` case).  The
    client objects `AzureOpenAI(...)` and `SearchClient(...)` are modelled by
    the configuration records handed to those functions.
  - A search result is a Python dict; the two score keys read by the code
    ("@search.score", "@search.reranker_score") are modelled as `Option`
    fields (absent key = `none`), the remaining string-valued document fields
    as an association list, and `dict.get` as `SearchResult.getField`.
  - Python floats are modelled as `ℚ`; the threshold literal `1.5` is
    `mkRat 3 2`; the host rendering `str(x)` of a number is abstracted by
    `ratRepr`.
  - `embedding_response.data[0]` on an empty list raises IndexError in the
    host; this is the `PipelineError.emptyEmbeddingData` outcome.
-/

namespace AISearchMCP

/-- One entry of the embeddings response `data` list (`data[0].embedding`). -/
structure EmbeddingDatum where
  embedding : List ℚ
  deriving DecidableEq

/-- The response of `client.embeddings.create`. -/
structure EmbeddingResponse where
  data : List EmbeddingDatum
  deriving DecidableEq

/-- One search result: the two numeric score keys read by the code, plus the
remaining string-valued document fields as an association list. -/
structure SearchResult where
  reranker_score : Option ℚ
  score : Option ℚ
  doc_fields : List (String × String)
  deriving DecidableEq

/-- Python `result.get(key, default)` restricted to the string-valued document
fields, with the key itself possibly `None` (an unset configured field name:
`None` is never a key of the string-keyed result dict, so the default is
returned). -/
def SearchResult.getField (result : SearchResult) (key : Option String) : Option String :=
  match key with
  | none => none
  | some k => result.doc_fields.lookup k

/-- The `VectorizedQuery(...)` value built at server.py line 83 /
server_sse.py lines 128-133. -/
structure VectorizedQuery where
  vector : List ℚ
  k_nearest_neighbors : ℕ
  fields : Option String
  exhaustive : Bool
  deriving DecidableEq

/-- The keyword arguments of the `search_client.search(...)` call
(server.py lines 85-96 / server_sse.py lines 136-146). -/
structure SearchRequest where
  search_text : Option String
  vector_queries : List VectorizedQuery
  top : ℕ
  select : String
  semantic_query : String
  query_type : String
  semantic_configuration_name : String
  query_answer : String
  query_caption : String
  deriving DecidableEq

/-- The arguments of the `AzureOpenAI(...)` client constructor. -/
structure OpenAIClientConfig where
  api_key : Option String
  api_version : Option String
  azure_endpoint : Option String
  deriving DecidableEq

/-- The arguments of the `SearchClient(...)` constructor (the credential is
the raw key wrapped in `AzureKeyCredential`). -/
structure SearchClientConfig where
  endpoint : Option String
  index_name : Option String
  credential : Option String
  deriving DecidableEq

/-- How an `ai_search` invocation can fail: one of the two collaborator calls
raises, or `embedding_response.data` is empty and `data[0]` faults. -/
inductive PipelineError where
  | embedFailed (msg : String)
  | emptyEmbeddingData
  | searchFailed (msg : String)
  deriving DecidableEq

/-- Spec section 7 taxonomy: an UpstreamServiceError is "the embedding or
search collaborator call fails ... or returns an unexpectedly empty result
where one value is required (e.g., zero embeddings)".  Every failure the
pipeline can produce is of that kind (there is no local-validation error). -/
def PipelineError.isUpstreamServiceError : PipelineError → Bool
  | .embedFailed _ => true
  | .emptyEmbeddingData => true
  | .searchFailed _ => true

/-- The embeddings collaborator: given the client configuration, the input
text and the model deployment name, it returns a response or raises. -/
def EmbedFn : Type :=
  OpenAIClientConfig → String → Option String → Except String EmbeddingResponse

/-- The search collaborator: given the client configuration and the request,
it returns the result list or raises. -/
def SearchFn : Type :=
  SearchClientConfig → SearchRequest → Except String (List SearchResult)

/-- Host-language rendering of a number inside an f-string (`str(x)`),
abstracted as the standard rendering of `ℚ`. -/
def ratRepr (q : ℚ) : String := toString q

/-- Rendering of `result.get("@search.score", "N/A")` inside the f-string:
the score when the key is present, the literal marker otherwise. -/
def showScore : Option ℚ → String
  | some s => ratRepr s
  | none => "N/A"

/-- The separator `"-"*50` of the result block. -/
def separatorLine : String := String.mk (List.replicate 50 '-')

/-- The filter condition of the formatting loop: the reranker score, defaulted
to 0 when absent, is at least 1.5 (`mkRat 3 2`). -/
def keep (result : SearchResult) : Bool :=
  decide (mkRat 3 2 ≤ (result.reranker_score).getD 0)

/-- The `AzureOpenAI(...)` client value built from the environment
(server.py lines 63-72). -/
def openaiClientOf (getenv : String → Option String) : OpenAIClientConfig :=
  { api_key := getenv "AZURE_OPENAI_KEY"
    api_version := getenv "AZURE_OPENAI_VERSION"
    azure_endpoint := getenv "AZURE_OPENAI_ENDPOINT" }

/-- The `SearchClient(...)` value built from the environment
(server.py lines 58-60 and 80-82). -/
def searchClientOf (getenv : String → Option String) : SearchClientConfig :=
  { endpoint := getenv "AZURE_SEARCH_ENDPOINT"
    index_name := getenv "AZURE_SEARCH_INDEX"
    credential := getenv "AZURE_SEARCH_KEY" }

namespace Server

/-- server.py lines 40-43: the `add` tool. -/
def add (a b : ℤ) : ℤ := a + b

/-- One block of the formatted output (server.py lines 104-112): the f-string
appended for a kept result, with 1-based sequence number `i`. -/
def renderBlock (search_content_field_name : Option String) (i : ℕ)
    (result : SearchResult) : String :=
  let content := (result.getField search_content_field_name).getD ""
  let score := showScore result.score
  "Source " ++ toString i ++ "\n" ++
  "Content: " ++ content ++ "\n" ++
  "@search.score: " ++ score ++ "\n" ++
  "@search.reranker_score: " ++ ratRepr ((result.reranker_score).getD 0) ++ "\n" ++
  separatorLine ++ "\n\n"

/-- The result loop of server.py lines 98-113: `i` is the running sequence
counter, `final_output` the accumulator. -/
def formatLoop (search_content_field_name : Option String) :
    ℕ → String → List SearchResult → String
  | _, final_output, [] => final_output
  | i, final_output, result :: results =>
    let reranker_score : ℚ := (result.reranker_score).getD 0
    if mkRat 3 2 ≤ reranker_score then
      formatLoop search_content_field_name (i + 1)
        (final_output ++ renderBlock search_content_field_name (i + 1) result) results
    else
      formatLoop search_content_field_name i final_output results

/-- server.py lines 98-113 entry point: `i = 0`, `final_output = ""`. -/
def formatResults (search_content_field_name : Option String)
    (results : List SearchResult) : String :=
  formatLoop search_content_field_name 0 "" results

/-- The search request of server.py lines 83-96. -/
def mkSearchRequest (search_vector_field_name : Option String) (query : String)
    (query_vector : List ℚ) : SearchRequest :=
  { search_text := none
    vector_queries := [{ vector := query_vector, k_nearest_neighbors := 5,
                         fields := search_vector_field_name, exhaustive := true }]
    top := 5
    select := "*"
    semantic_query := query
    query_type := "semantic"
    semantic_configuration_name := "itsupportindex-semantic-configuration"
    query_answer := "extractive|count-5"
    query_caption := "extractive|highlight-false" }

/-- server.py lines 47-113: the `ai_search` tool. -/
def ai_search (getenv : String → Option String) (query : String)
    (embeddings_create : EmbedFn) (search : SearchFn) :
    Except PipelineError String :=
  let search_vector_field_name := getenv "AZURE_SEARCH_VECTOR_FIELD_NAME"
  let search_content_field_name := getenv "AZURE_SEARCH_CONTENT_FIELD_NAME"
  let azure_ada_deployment := getenv "AZURE_EMBEDDINGS_DEPLOYMENT"
  let client := openaiClientOf getenv
  match embeddings_create client query azure_ada_deployment with
  | .error e => .error (.embedFailed e)
  | .ok embedding_response =>
    match embedding_response.data with
    | [] => .error .emptyEmbeddingData
    | d :: _ =>
      let query_vector := d.embedding
      let search_client := searchClientOf getenv
      match search search_client (mkSearchRequest search_vector_field_name query query_vector) with
      | .error e => .error (.searchFailed e)
      | .ok results => .ok (formatResults search_content_field_name results)

end Server

namespace ServerSSE

/-- server_sse.py lines 60-75: the `add` tool. -/
def add (a b : ℤ) : ℤ := a + b

/-- One block of the formatted output (server_sse.py lines 158-168). -/
def renderBlock (search_content_field_name : Option String) (i : ℕ)
    (result : SearchResult) : String :=
  let content := (result.getField search_content_field_name).getD ""
  let score := showScore result.score
  "Source " ++ toString i ++ "\n" ++
  "Content: " ++ content ++ "\n" ++
  "@search.score: " ++ score ++ "\n" ++
  "@search.reranker_score: " ++ ratRepr ((result.reranker_score).getD 0) ++ "\n" ++
  separatorLine ++ "\n\n"

/-- The result loop of server_sse.py lines 149-170. -/
def formatLoop (search_content_field_name : Option String) :
    ℕ → String → List SearchResult → String
  | _, final_output, [] => final_output
  | i, final_output, result :: results =>
    let reranker_score : ℚ := (result.reranker_score).getD 0
    if mkRat 3 2 ≤ reranker_score then
      formatLoop search_content_field_name (i + 1)
        (final_output ++ renderBlock search_content_field_name (i + 1) result) results
    else
      formatLoop search_content_field_name i final_output results

/-- server_sse.py lines 149-170 entry point: `i = 0`, `final_output = ""`. -/
def formatResults (search_content_field_name : Option String)
    (results : List SearchResult) : String :=
  formatLoop search_content_field_name 0 "" results

/-- The search request of server_sse.py lines 128-146. -/
def mkSearchRequest (search_vector_field_name : Option String) (query : String)
    (query_vector : List ℚ) : SearchRequest :=
  { search_text := none
    vector_queries := [{ vector := query_vector, k_nearest_neighbors := 5,
                         fields := search_vector_field_name, exhaustive := true }]
    top := 5
    select := "*"
    semantic_query := query
    query_type := "semantic"
    semantic_configuration_name := "itsupportindex-semantic-configuration"
    query_answer := "extractive|count-5"
    query_caption := "extractive|highlight-false" }

/-- server_sse.py lines 80-170: the `ai_search` tool. -/
def ai_search (getenv : String → Option String) (query : String)
    (embeddings_create : EmbedFn) (search : SearchFn) :
    Except PipelineError String :=
  let search_vector_field_name := getenv "AZURE_SEARCH_VECTOR_FIELD_NAME"
  let search_content_field_name := getenv "AZURE_SEARCH_CONTENT_FIELD_NAME"
  let azure_ada_deployment := getenv "AZURE_EMBEDDINGS_DEPLOYMENT"
  let client := openaiClientOf getenv
  match embeddings_create client query azure_ada_deployment with
  | .error e => .error (.embedFailed e)
  | .ok embedding_response =>
    match embedding_response.data with
    | [] => .error .emptyEmbeddingData
    | d :: _ =>
      let query_vector := d.embedding
      let search_client := searchClientOf getenv
      match search search_client (mkSearchRequest search_vector_field_name query query_vector) with
      | .error e => .error (.searchFailed e)
      | .ok results => .ok (formatResults search_content_field_name results)

end ServerSSE

/-! ### Concrete test fixtures (mocked environment, collaborators and results) -/

/-- A fully populated environment: every variable is set to the string "x". -/
def genv0 : String → Option String := fun _ => some "x"

/-- An environment in which only the content-field-name variable is unset. -/
def genvNoCF : String → Option String := fun k =>
  if k = "AZURE_SEARCH_CONTENT_FIELD_NAME" then none else some "x"

/-- Result with reranker score 2.0 and a content field named "x". -/
def r20 : SearchResult :=
  { reranker_score := some 2, score := some 4, doc_fields := [("x", "alpha")] }

/-- Result with reranker score exactly 1.5 and no "@search.score" key. -/
def r15 : SearchResult :=
  { reranker_score := some (mkRat 3 2), score := none, doc_fields := [("x", "beta")] }

/-- Result with reranker score 1.4 (below threshold). -/
def r14 : SearchResult :=
  { reranker_score := some (mkRat 7 5), score := some 1, doc_fields := [("x", "gamma")] }

/-- Result with reranker score 0. -/
def r00 : SearchResult :=
  { reranker_score := some 0, score := none, doc_fields := [] }

/-- Kept result that lacks the configured content field "x". -/
def rNoContent : SearchResult :=
  { reranker_score := some 2, score := none, doc_fields := [("y", "delta")] }

/-- The deterministic mocked embeddings response: one embedding. -/
def respMock : EmbeddingResponse := { data := [{ embedding := [1, 0] }] }

/-- Mock embeddings collaborator that always succeeds with `respMock`. -/
def mockEmbed : EmbedFn := fun _ _ _ => .ok respMock

/-- Mock embeddings collaborator that always raises. -/
def failEmbed : EmbedFn := fun _ _ _ => .error "boom"

/-- Mock embeddings collaborator answering only the input "q": it agrees with
`mockEmbed` there but is a different function. -/
def mockEmbed2 : EmbedFn := fun _ i _ =>
  if i = "q" then .ok respMock else .error "other input"

/-- Mock embeddings collaborator whose response carries zero embeddings. -/
def emptyEmbed : EmbedFn := fun _ _ _ => .ok { data := [] }

/-- Mock search collaborator returning the four-score scenario of the spec:
reranker scores 2.0, 1.5, 1.4, 0 in that order. -/
def mockSearch4 : SearchFn := fun _ _ => .ok [r20, r15, r14, r00]

/-- Mock search collaborator returning only below-threshold results. -/
def mockSearchLow : SearchFn := fun _ _ => .ok [r14, r00]

/-- Mock search collaborator answering only the single request
`Server.mkSearchRequest (some "x") "q" [1, 0]` and raising on any other. -/
def mockSearchOnlyReq : SearchFn := fun _ req =>
  if req = Server.mkSearchRequest (some "x") "q" [1, 0] then .ok [r20, r15, r14, r00]
  else .error "unexpected request"

/-! ### Helper lemmas -/

theorem foldl_append_init (l : List String) : ∀ a : String,
    List.foldl (fun r s => r ++ s) a l = a ++ List.foldl (fun r s => r ++ s) "" l := by
  induction l with
  | nil => intro a; simp
  | cons x xs ih =>
    intro a
    simp only [List.foldl_cons]
    rw [ih (a ++ x), ih ("" ++ x)]
    simp [String.append_assoc]

theorem join_cons (s : String) (l : List String) :
    String.join (s :: l) = s ++ String.join l := by
  simp only [String.join, List.foldl_cons]
  rw [foldl_append_init]
  simp

/-- The formatting loop of server.py, characterized: it appends to the
accumulator one block per result that passes the reranker-score filter, in
the original order, with sequence numbers continuing from `i + 1`. -/
theorem Server.formatLoop_eq (cf : Option String) (rs : List SearchResult) :
    ∀ (i : ℕ) (acc : String),
      Server.formatLoop cf i acc rs
        = acc ++ String.join
            ((rs.filter keep).mapIdx fun j r => Server.renderBlock cf (i + j + 1) r) := by
  induction rs with
  | nil => intro i acc; simp [Server.formatLoop, String.join]
  | cons r rs ih =>
    intro i acc
    by_cases h : mkRat 3 2 ≤ (r.reranker_score).getD 0
    · have hk : keep r = true := by simp [keep, h]
      rw [show Server.formatLoop cf i acc (r :: rs)
            = Server.formatLoop cf (i + 1) (acc ++ Server.renderBlock cf (i + 1) r) rs by
          simp [Server.formatLoop, h]]
      rw [ih (i + 1)]
      rw [List.filter_cons_of_pos hk, List.mapIdx_cons]
      rw [join_cons, ← String.append_assoc]
      have harith : (fun j x => Server.renderBlock cf (i + (j + 1) + 1) x)
          = (fun j x => Server.renderBlock cf (i + 1 + j + 1) x) := by
        funext j x
        congr 1
        omega
      rw [show i + 0 + 1 = i + 1 by omega, harith]
    · have hk : keep r = false := by simp [keep, h]
      rw [show Server.formatLoop cf i acc (r :: rs)
            = Server.formatLoop cf i acc rs by simp [Server.formatLoop, h]]
      rw [ih i]
      rw [List.filter_cons_of_neg (by simp [hk])]

/-- server.py formatting entry point, characterized: the output is the join of
the blocks of the kept results, in order, numbered from 1. -/
theorem Server.formatResults_eq (cf : Option String) (rs : List SearchResult) :
    Server.formatResults cf rs
      = String.join ((rs.filter keep).mapIdx fun j r => Server.renderBlock cf (j + 1) r) := by
  rw [Server.formatResults, Server.formatLoop_eq]
  have harith : (fun (j : ℕ) (x : SearchResult) => Server.renderBlock cf (0 + j + 1) x)
      = (fun j x => Server.renderBlock cf (j + 1) x) := by
    funext j x
    congr 1
    omega
  rw [harith]
  simp

theorem renderBlock_eqv : ServerSSE.renderBlock = Server.renderBlock := rfl

theorem mkSearchRequest_eqv : ServerSSE.mkSearchRequest = Server.mkSearchRequest := rfl

theorem formatLoop_eqv (cf : Option String) (rs : List SearchResult) :
    ∀ (i : ℕ) (acc : String),
      ServerSSE.formatLoop cf i acc rs = Server.formatLoop cf i acc rs := by
  induction rs with
  | nil => intro i acc; rfl
  | cons r rs ih =>
    intro i acc
    by_cases h : mkRat 3 2 ≤ (r.reranker_score).getD 0
    · simp only [ServerSSE.formatLoop, Server.formatLoop, if_pos h, renderBlock_eqv]
      exact ih _ _
    · simp only [ServerSSE.formatLoop, Server.formatLoop, if_neg h]
      exact ih _ _

theorem formatResults_eqv : ServerSSE.formatResults = Server.formatResults := by
  funext cf rs
  exact formatLoop_eqv cf rs 0 ""

theorem ai_search_eqv (getenv : String → Option String) (query : String)
    (ec : EmbedFn) (s : SearchFn) :
    ServerSSE.ai_search getenv query ec s = Server.ai_search getenv query ec s := by
  simp only [ServerSSE.ai_search, Server.ai_search, mkSearchRequest_eqv, formatResults_eqv]

/-- `ai_search` of server.py, with the let-bindings expanded: the behaviour is
the chain embed call, first embedding datum, search call, formatting. -/
theorem Server.ai_search_unfold (getenv : String → Option String) (query : String)
    (ec : EmbedFn) (s : SearchFn) :
    Server.ai_search getenv query ec s
      = match ec (openaiClientOf getenv) query (getenv "AZURE_EMBEDDINGS_DEPLOYMENT") with
        | .error e => .error (.embedFailed e)
        | .ok embedding_response =>
          match embedding_response.data with
          | [] => .error .emptyEmbeddingData
          | d :: _ =>
            match s (searchClientOf getenv)
                (Server.mkSearchRequest (getenv "AZURE_SEARCH_VECTOR_FIELD_NAME") query
                  d.embedding) with
            | .error e => .error (.searchFailed e)
            | .ok results =>
              .ok (Server.formatResults (getenv "AZURE_SEARCH_CONTENT_FIELD_NAME") results) :=
  rfl

/-- When every result fails the reranker filter, the formatted output is the
empty string. -/
theorem Server.formatResults_of_all_low (cf : Option String) (results : List SearchResult)
    (hlow : ∀ r ∈ results, keep r = false) : Server.formatResults cf results = "" := by
  rw [Server.formatResults_eq]
  rw [List.filter_eq_nil_iff.mpr (fun a ha => by simp [hlow a ha])]
  rfl

/-- Claim C1: the Retrieval Pipeline keeps a search result if and only if its
reranker score, read with a default of 0 when the field is absent, is at least
1.5; for a query with a deterministic mocked embedding and a mocked search
response whose results carry reranker scores 2.0, 1.5, 1.4, 0 in that order,
the formatted output consists of exactly the 2 blocks "Source 1" and
"Source 2" (for the 2.0 and 1.5 results, in original order); and a result
missing the reranker-score field entirely is treated as score 0 and
excluded. -/
theorem c1_reranker_threshold_filter :
    (∀ r : SearchResult, keep r = decide (mkRat 3 2 ≤ (r.reranker_score).getD 0))
    ∧ (∀ (cf : Option String) (rs : List SearchResult),
        Server.formatResults cf rs
          = String.join ((rs.filter keep).mapIdx fun j r => Server.renderBlock cf (j + 1) r))
    ∧ (∀ (sc : Option ℚ) (df : List (String × String)),
        keep { reranker_score := none, score := sc, doc_fields := df } = false)
    ∧ Server.ai_search genv0 "q" mockEmbed mockSearch4
        = .ok (Server.renderBlock (some "x") 1 r20 ++ Server.renderBlock (some "x") 2 r15)
    ∧ (List.filter keep [r20, r15, r14, r00]).length = 2 := by
  refine ⟨fun r => rfl, Server.formatResults_eq, fun sc df => rfl, ?_, by decide⟩
  rw [show Server.ai_search genv0 "q" mockEmbed mockSearch4
      = .ok (Server.formatResults (some "x") [r20, r15, r14, r00]) from rfl]
  rw [Server.formatResults_eq]
  rw [show List.filter keep [r20, r15, r14, r00] = [r20, r15] by decide]
  simp [List.mapIdx_cons, String.join, String.append_assoc]

/-- Claim C2: whenever the embedding call succeeds with at least one embedding
and the search call succeeds with a result list in which no result reaches
reranker score 1.5 (in particular an empty result list), `ai_search` returns
the empty string as a normal value: not an error. -/
theorem c2_no_qualifying_results_empty_string
    (getenv : String → Option String) (query : String) (ec : EmbedFn) (s : SearchFn)
    (resp : EmbeddingResponse) (d : EmbeddingDatum) (ds : List EmbeddingDatum)
    (results : List SearchResult)
    (hec : ec (openaiClientOf getenv) query (getenv "AZURE_EMBEDDINGS_DEPLOYMENT") = .ok resp)
    (hdata : resp.data = d :: ds)
    (hs : s (searchClientOf getenv)
        (Server.mkSearchRequest (getenv "AZURE_SEARCH_VECTOR_FIELD_NAME") query d.embedding)
        = .ok results)
    (hlow : ∀ r ∈ results, keep r = false) :
    Server.ai_search getenv query ec s = .ok "" := by
  rw [Server.ai_search_unfold, hec]
  dsimp only
  rw [hdata]
  dsimp only
  rw [hs]
  dsimp only
  rw [Server.formatResults_of_all_low _ _ hlow]

/-- Witness for C2: the zero-results search response yields the empty string. -/
theorem c2_witness : Server.ai_search genv0 "q" mockEmbed (fun _ _ => .ok []) = .ok "" :=
  c2_no_qualifying_results_empty_string genv0 "q" mockEmbed (fun _ _ => .ok [])
    respMock { embedding := [1, 0] } [] [] rfl rfl rfl (by simp)

/-- Claim C3: if the embedding call fails, either by raising or by returning
zero embedding results, then the search collaborator is never consulted (the
outcome does not depend on it at all) and `ai_search` surfaces an error of the
UpstreamServiceError kind (spec section 7) arising from the embedding stage,
rather than proceeding to formatting. -/
theorem c3_embed_failure_skips_search
    (getenv : String → Option String) (query : String) (ec : EmbedFn)
    (hfail : (∃ msg, ec (openaiClientOf getenv) query (getenv "AZURE_EMBEDDINGS_DEPLOYMENT")
                = .error msg)
      ∨ (∃ resp, ec (openaiClientOf getenv) query (getenv "AZURE_EMBEDDINGS_DEPLOYMENT")
                = .ok resp ∧ resp.data = [])) :
    (∀ s₁ s₂ : SearchFn,
      Server.ai_search getenv query ec s₁ = Server.ai_search getenv query ec s₂)
    ∧ (∀ s : SearchFn, ∃ e : PipelineError,
        Server.ai_search getenv query ec s = .error e
        ∧ e.isUpstreamServiceError = true
        ∧ ((∃ msg, e = .embedFailed msg) ∨ e = .emptyEmbeddingData)) := by
  rcases hfail with ⟨msg, hm⟩ | ⟨resp, hok, hnil⟩
  · constructor
    · intro s₁ s₂
      rw [Server.ai_search_unfold, Server.ai_search_unfold, hm]
    · intro s
      refine ⟨.embedFailed msg, ?_, rfl, Or.inl ⟨msg, rfl⟩⟩
      rw [Server.ai_search_unfold, hm]
  · constructor
    · intro s₁ s₂
      rw [Server.ai_search_unfold, Server.ai_search_unfold, hok]
      dsimp only
      rw [hnil]
    · intro s
      refine ⟨.emptyEmbeddingData, ?_, rfl, Or.inr rfl⟩
      rw [Server.ai_search_unfold, hok]
      dsimp only
      rw [hnil]

/-- Witness for C3: with an embeddings collaborator that raises, the outcome
ignores the search collaborator and is the embed-stage upstream error. -/
theorem c3_witness :
    failEmbed (openaiClientOf genv0) "q" (genv0 "AZURE_EMBEDDINGS_DEPLOYMENT")
      = .error "boom"
    ∧ Server.ai_search genv0 "q" failEmbed mockSearch4
        = Server.ai_search genv0 "q" failEmbed mockSearchLow
    ∧ ∃ e : PipelineError,
        Server.ai_search genv0 "q" failEmbed mockSearch4 = .error e
        ∧ e.isUpstreamServiceError = true
        ∧ ((∃ msg, e = .embedFailed msg) ∨ e = .emptyEmbeddingData) :=
  ⟨rfl,
   (c3_embed_failure_skips_search genv0 "q" failEmbed (Or.inl ⟨"boom", rfl⟩)).1
     mockSearch4 mockSearchLow,
   (c3_embed_failure_skips_search genv0 "q" failEmbed (Or.inl ⟨"boom", rfl⟩)).2 mockSearch4⟩

/-- Claim C4: for every search response, the formatted output is the join, in
the order returned by the search service, of one block per kept result,
labelled with 1-indexed sequence numbers; each block is the sequence label,
the content field value, the raw relevance score or the literal "N/A" when
absent, the reranker score, and a 50-character separator line followed by a
blank line. -/
theorem c4_output_order_and_block_shape :
    ∀ (cf : Option String) (rs : List SearchResult),
      Server.formatResults cf rs
        = String.join ((rs.filter keep).mapIdx fun j r => Server.renderBlock cf (j + 1) r)
      ∧ (∀ (i : ℕ) (r : SearchResult),
          Server.renderBlock cf i r
            = "Source " ++ toString i ++ "\n"
              ++ "Content: " ++ (r.getField cf).getD "" ++ "\n"
              ++ "@search.score: " ++ showScore r.score ++ "\n"
              ++ "@search.reranker_score: " ++ ratRepr ((r.reranker_score).getD 0) ++ "\n"
              ++ separatorLine ++ "\n\n")
      ∧ separatorLine.length = 50
      ∧ separatorLine.data = List.replicate 50 '-' :=
  fun cf rs => ⟨Server.formatResults_eq cf rs, fun _ _ => rfl, rfl, rfl⟩

/-- Claim C5: a result that passes the reranker filter but lacks the
configured content field still contributes its block (it is among the kept
results that generate blocks), with the content portion rendered as the empty
string. -/
theorem c5_missing_content_still_kept
    (cf : Option String) (rs : List SearchResult) (r : SearchResult)
    (hmem : r ∈ rs) (hkeep : keep r = true) (hmiss : r.getField cf = none) :
    r ∈ rs.filter keep
    ∧ (r.getField cf).getD "" = ""
    ∧ (∀ i : ℕ, Server.renderBlock cf i r
        = "Source " ++ toString i ++ "\n"
          ++ "Content: " ++ "" ++ "\n"
          ++ "@search.score: " ++ showScore r.score ++ "\n"
          ++ "@search.reranker_score: " ++ ratRepr ((r.reranker_score).getD 0) ++ "\n"
          ++ separatorLine ++ "\n\n") := by
  refine ⟨List.mem_filter.mpr ⟨hmem, hkeep⟩, by rw [hmiss]; rfl, fun i => ?_⟩
  simp only [Server.renderBlock, hmiss, Option.getD_none]

/-- Witness for C5: a kept result without the configured content field "x". -/
theorem c5_witness :
    rNoContent ∈ List.filter keep [rNoContent]
    ∧ (rNoContent.getField (some "x")).getD "" = ""
    ∧ (∀ i : ℕ, Server.renderBlock (some "x") i rNoContent
        = "Source " ++ toString i ++ "\n"
          ++ "Content: " ++ "" ++ "\n"
          ++ "@search.score: " ++ showScore rNoContent.score ++ "\n"
          ++ "@search.reranker_score: " ++ ratRepr ((rNoContent.reranker_score).getD 0) ++ "\n"
          ++ separatorLine ++ "\n\n") :=
  c5_missing_content_still_kept (some "x") [rNoContent] rNoContent
    (by simp) (by decide) rfl

/-- Claim C6: the search request issued by `ai_search` has text query none,
exactly one vector sub-query built from the computed embedding with 5 nearest
neighbours, the configured vector field and exhaustive search, top 5 results
with all fields selected, semantic query text equal to the original query,
semantic ranking enabled, and the hard-coded semantic configuration name; and
the outcome of `ai_search` consults the search collaborator only at exactly
that request. -/
theorem c6_search_request_contents :
    (∀ (vf : Option String) (query : String) (v : List ℚ),
      (Server.mkSearchRequest vf query v).search_text = none
      ∧ (Server.mkSearchRequest vf query v).vector_queries
          = [{ vector := v, k_nearest_neighbors := 5, fields := vf, exhaustive := true }]
      ∧ (Server.mkSearchRequest vf query v).top = 5
      ∧ (Server.mkSearchRequest vf query v).select = "*"
      ∧ (Server.mkSearchRequest vf query v).semantic_query = query
      ∧ (Server.mkSearchRequest vf query v).query_type = "semantic"
      ∧ (Server.mkSearchRequest vf query v).semantic_configuration_name
          = "itsupportindex-semantic-configuration")
    ∧ (∀ (getenv : String → Option String) (query : String) (ec : EmbedFn)
        (s₁ s₂ : SearchFn) (resp : EmbeddingResponse) (d : EmbeddingDatum)
        (ds : List EmbeddingDatum),
        ec (openaiClientOf getenv) query (getenv "AZURE_EMBEDDINGS_DEPLOYMENT") = .ok resp →
        resp.data = d :: ds →
        s₁ (searchClientOf getenv)
            (Server.mkSearchRequest (getenv "AZURE_SEARCH_VECTOR_FIELD_NAME") query d.embedding)
          = s₂ (searchClientOf getenv)
            (Server.mkSearchRequest (getenv "AZURE_SEARCH_VECTOR_FIELD_NAME") query
              d.embedding) →
        Server.ai_search getenv query ec s₁ = Server.ai_search getenv query ec s₂) := by
  refine ⟨fun vf query v => ⟨rfl, rfl, rfl, rfl, rfl, rfl, rfl⟩, ?_⟩
  intro getenv query ec s₁ s₂ resp d ds hec hdata hagree
  rw [Server.ai_search_unfold, Server.ai_search_unfold, hec]
  dsimp only
  rw [hdata]
  dsimp only
  rw [hagree]

/-- Witness for C6: a search collaborator defined only at the one issued
request produces the same outcome as one defined everywhere. -/
theorem c6_witness :
    (Server.mkSearchRequest (some "x") "q" [1]).top = 5
    ∧ Server.ai_search genv0 "q" mockEmbed mockSearch4
        = Server.ai_search genv0 "q" mockEmbed mockSearchOnlyReq :=
  ⟨(c6_search_request_contents.1 (some "x") "q" [1]).2.2.1,
   c6_search_request_contents.2 genv0 "q" mockEmbed mockSearch4 mockSearchOnlyReq
     respMock { embedding := [1, 0] } [] rfl rfl
     (by simp [mockSearch4, mockSearchOnlyReq, genv0])⟩

/-- Counterexample to claim C7: the environment variable
AZURE_SEARCH_CONTENT_FIELD_NAME is a required configuration value (spec
section 4.1), yet when it is the one missing value and both collaborators
answer normally, no collaborator call fails and the pipeline completes
normally, returning its results with empty content portions. -/
theorem c7_counterexample :
    genvNoCF "AZURE_SEARCH_CONTENT_FIELD_NAME" = none
    ∧ Server.ai_search genvNoCF "q" mockEmbed mockSearch4
        = .ok (Server.renderBlock none 1 r20 ++ Server.renderBlock none 2 r15)
    ∧ (Server.ai_search genvNoCF "q" mockEmbed mockSearch4).isOk = true := by
  refine ⟨rfl, ?_, by rfl⟩
  rw [show Server.ai_search genvNoCF "q" mockEmbed mockSearch4
      = .ok (Server.formatResults none [r20, r15, r14, r00]) from rfl]
  rw [Server.formatResults_eq]
  rw [show List.filter keep [r20, r15, r14, r00] = [r20, r15] by decide]
  simp [List.mapIdx_cons, String.join, String.append_assoc]

/-- Claim C7 as amended: missing configuration is never validated locally and
the pipeline itself raises nothing: every failing run of `ai_search` is the
propagation of a collaborator failure (embed raised, embed returned zero
embeddings, or search raised); but a missing configuration value does not
always cause a collaborator call to fail — a missing content field name is
never handed to a collaborator and the pipeline can complete normally. -/
theorem c7_failures_only_from_collaborators
    (getenv : String → Option String) (query : String) (ec : EmbedFn) (s : SearchFn)
    (e : PipelineError)
    (herr : Server.ai_search getenv query ec s = .error e) :
    (∃ msg, ec (openaiClientOf getenv) query (getenv "AZURE_EMBEDDINGS_DEPLOYMENT")
        = .error msg ∧ e = .embedFailed msg)
    ∨ (∃ resp, ec (openaiClientOf getenv) query (getenv "AZURE_EMBEDDINGS_DEPLOYMENT")
        = .ok resp ∧ resp.data = [] ∧ e = .emptyEmbeddingData)
    ∨ (∃ resp d ds msg,
        ec (openaiClientOf getenv) query (getenv "AZURE_EMBEDDINGS_DEPLOYMENT") = .ok resp
        ∧ resp.data = d :: ds
        ∧ s (searchClientOf getenv)
            (Server.mkSearchRequest (getenv "AZURE_SEARCH_VECTOR_FIELD_NAME") query d.embedding)
          = .error msg
        ∧ e = .searchFailed msg) := by
  rw [Server.ai_search_unfold] at herr
  cases hec : ec (openaiClientOf getenv) query (getenv "AZURE_EMBEDDINGS_DEPLOYMENT") with
  | error msg =>
    rw [hec] at herr
    dsimp only at herr
    exact Or.inl ⟨msg, rfl, by injection herr with h; exact h.symm⟩
  | ok resp =>
    rw [hec] at herr
    dsimp only at herr
    cases hdata : resp.data with
    | nil =>
      rw [hdata] at herr
      dsimp only at herr
      exact Or.inr (Or.inl ⟨resp, rfl, hdata, by injection herr with h; exact h.symm⟩)
    | cons d ds =>
      rw [hdata] at herr
      dsimp only at herr
      cases hs : s (searchClientOf getenv)
          (Server.mkSearchRequest (getenv "AZURE_SEARCH_VECTOR_FIELD_NAME") query
            d.embedding) with
      | error msg =>
        rw [hs] at herr
        dsimp only at herr
        exact Or.inr (Or.inr ⟨resp, d, ds, msg, rfl, hdata, hs,
          by injection herr with h; exact h.symm⟩)
      | ok results =>
        rw [hs] at herr
        dsimp only at herr
        exact absurd herr (by simp)

/-- Witness for the amended C7: a raising embeddings collaborator produces a
failing run, and that failure is classified as the propagated embed error. -/
theorem c7_witness :
    (∃ msg, failEmbed (openaiClientOf genv0) "q" (genv0 "AZURE_EMBEDDINGS_DEPLOYMENT")
        = .error msg ∧ PipelineError.embedFailed "boom" = .embedFailed msg)
    ∨ (∃ resp, failEmbed (openaiClientOf genv0) "q" (genv0 "AZURE_EMBEDDINGS_DEPLOYMENT")
        = .ok resp ∧ resp.data = [] ∧ PipelineError.embedFailed "boom" = .emptyEmbeddingData)
    ∨ (∃ resp d ds msg,
        failEmbed (openaiClientOf genv0) "q" (genv0 "AZURE_EMBEDDINGS_DEPLOYMENT") = .ok resp
        ∧ resp.data = d :: ds
        ∧ mockSearch4 (searchClientOf genv0)
            (Server.mkSearchRequest (genv0 "AZURE_SEARCH_VECTOR_FIELD_NAME") "q" d.embedding)
          = .error msg
        ∧ PipelineError.embedFailed "boom" = .searchFailed msg) :=
  c7_failures_only_from_collaborators genv0 "q" failEmbed mockSearch4
    (.embedFailed "boom") rfl

/-- Claim C8: the output of `ai_search` is a deterministic function of the
query and the two collaborator responses: two invocations whose collaborators
deliver the same responses (at the points the pipeline consults them) produce
identical results. -/
theorem c8_deterministic_in_responses
    (getenv : String → Option String) (query : String)
    (ec₁ ec₂ : EmbedFn) (s₁ s₂ : SearchFn)
    (he : ec₁ (openaiClientOf getenv) query (getenv "AZURE_EMBEDDINGS_DEPLOYMENT")
        = ec₂ (openaiClientOf getenv) query (getenv "AZURE_EMBEDDINGS_DEPLOYMENT"))
    (hs : ∀ req, s₁ (searchClientOf getenv) req = s₂ (searchClientOf getenv) req) :
    Server.ai_search getenv query ec₁ s₁ = Server.ai_search getenv query ec₂ s₂ := by
  rw [Server.ai_search_unfold, Server.ai_search_unfold, he]
  cases ec₂ (openaiClientOf getenv) query (getenv "AZURE_EMBEDDINGS_DEPLOYMENT") with
  | error msg => rfl
  | ok resp =>
    dsimp only
    cases resp.data with
    | nil => rfl
    | cons d ds =>
      dsimp only
      rw [hs]

/-- Witness for C8: two syntactically different embeddings collaborators that
agree on the one call the pipeline makes yield byte-identical output. -/
theorem c8_witness :
    mockEmbed (openaiClientOf genv0) "q" (genv0 "AZURE_EMBEDDINGS_DEPLOYMENT")
      = mockEmbed2 (openaiClientOf genv0) "q" (genv0 "AZURE_EMBEDDINGS_DEPLOYMENT")
    ∧ Server.ai_search genv0 "q" mockEmbed mockSearch4
        = Server.ai_search genv0 "q" mockEmbed2 mockSearch4 :=
  ⟨rfl, c8_deterministic_in_responses genv0 "q" mockEmbed mockEmbed2 mockSearch4 mockSearch4
    rfl (fun _ => rfl)⟩

/-- Claim C9: `add` returns the exact integer sum of its arguments; in
particular add(2, 3) = 5 and add(-1, 1) = 0. -/
theorem c9_add_exact_sum :
    (∀ a b : ℤ, Server.add a b = a + b)
    ∧ Server.add 2 3 = 5
    ∧ Server.add (-1) 1 = 0 :=
  ⟨fun _ _ => rfl, by decide, by decide⟩

/-- Claim C10: the `ai_search` of server.py and the `ai_search` of
server_sse.py are extensionally equal: for every environment, query and pair
of collaborators they return the same value, they build identical search
requests, and their formatting stages agree; the `add` tools agree too. -/
theorem c10_server_sse_equivalence :
    (∀ (getenv : String → Option String) (query : String) (ec : EmbedFn) (s : SearchFn),
      ServerSSE.ai_search getenv query ec s = Server.ai_search getenv query ec s)
    ∧ ServerSSE.mkSearchRequest = Server.mkSearchRequest
    ∧ ServerSSE.formatResults = Server.formatResults
    ∧ ServerSSE.renderBlock = Server.renderBlock
    ∧ (∀ a b : ℤ, ServerSSE.add a b = Server.add a b) :=
  ⟨ai_search_eqv, mkSearchRequest_eqv, formatResults_eqv, renderBlock_eqv, fun _ _ => rfl⟩

end AISearchMCP
